import Mathlib

/-
Verification of the voice-action orchestration pipeline of the emoji-rpg
backend.  The definitions below are a shallow embedding of the code in
src/server/src/server.ts (the POST /api/voice-action handler) and of the
game-master module (generateGameResponse, getFallbackResponse,
getInitialGameState).  The three external AI services (speech-to-text,
chat completion, text-to-speech) are modelled as oracles: an `Upstream`
record supplies, for every input, the outcome the external call would
produce, and the pipeline is a pure function of the request and of that
record.  The handler also returns the list of upstream calls it issued, so
that properties of the form "stage X is never invoked" are directly
statable.
-/

/-- The structured scene record produced by the Scene Generator
(interface GameResponse in the source). -/
structure GameResponse where
  emojiScene : String
  description : String
  options : List String
  newGameState : String
  ttsText : String
deriving DecidableEq

/-- The dynamically-typed object obtained from JSON.parse of the chat
completion content: each of the five expected fields may be absent. -/
structure RawGameResponse where
  emojiScene : Option String
  description : Option String
  options : Option (List String)
  newGameState : Option String
  ttsText : Option String
deriving DecidableEq

/-- Outcome of the chat-completion upstream call inside
generateGameResponse: the call can error (network error, timeout), the
completion can come back with no content, the content can fail JSON
parsing, or it parses to a raw object. -/
inductive GenOutcome where
  | apiError
  | noContent
  | parseError
  | parsed (r : RawGameResponse)
deriving DecidableEq

/-- JavaScript truthiness of an optional string: absent (undefined) and
the empty string are falsy; any non-empty string is truthy. -/
def truthy : Option String → Bool
  | none => false
  | some s => !(s == "")

/-- Shallow embedding of generateGameResponse from the game-master module:
given the outcome of the upstream chat call, it rethrows every internal
error as the single message the source uses, validates the five required
fields by JS truthiness (an absent or empty string field throws; an empty
options array is truthy and passes), and otherwise returns the parsed
record unchanged.  The soft-constraint checks of the source (emoji count
6-12, option count 2-4) only log warnings and do not alter the result, so
they do not appear in the value-level semantics. -/
def generateGameResponse (o : GenOutcome) : Except String GameResponse :=
  match o with
  | .apiError => .error "Failed to generate game response"
  | .noContent => .error "Failed to generate game response"
  | .parseError => .error "Failed to generate game response"
  | .parsed r =>
    if truthy r.emojiScene = false ∨ truthy r.description = false ∨ r.options = none
        ∨ truthy r.newGameState = false ∨ truthy r.ttsText = false then
      .error "Failed to generate game response"
    else
      .ok { emojiScene := r.emojiScene.getD ""
            description := r.description.getD ""
            options := r.options.getD []
            newGameState := r.newGameState.getD ""
            ttsText := r.ttsText.getD "" }

/-- The fallback-table entry keyed home_full_health (also the default
entry of the table). -/
def fallbackHomeFullHealth : GameResponse :=
  { emojiScene := "🏠👤💰💰💰❤️❤️❤️"
    description := "You are home with 3 gold and full health. What do you want to do?"
    options := ["⚔️ Fight", "🌲 Forest", "💤 Rest"]
    newGameState := "home_full_health"
    ttsText := "You are home with full health. What do you want to do?" }

/-- The fallback-table entry keyed forest_encounter. -/
def fallbackForestEncounter : GameResponse :=
  { emojiScene := "🌲🌲👤🐺👹🌲🌲"
    description := "In the forest you encounter an enemy! Prepare for battle."
    options := ["⚔️ Attack", "🛡️ Defend", "🏃 Flee"]
    newGameState := "combat_wolf"
    ttsText := "In the forest you encounter an enemy! Prepare for battle." }

/-- What the JavaScript expression fallbacks[currentGameState] ||
fallbacks.home_full_health can evaluate to: a scene record (an own entry
of the table, or the default), or a truthy member inherited from
Object.prototype when the label names one — in that case the || default
is never consulted and no scene record is produced. -/
inductive FallbackLookup where
  | record (g : GameResponse)
  | protoMember (name : String)
deriving DecidableEq

/-- The string-keyed property names every plain object literal inherits
from Object.prototype: indexing fallbacks with one of these labels
returns the truthy inherited member (a function, or the prototype object
itself for __proto__), not undefined. -/
def objectProtoKeys : List String :=
  ["constructor", "hasOwnProperty", "isPrototypeOf", "propertyIsEnumerable",
   "toLocaleString", "toString", "valueOf", "__proto__",
   "__defineGetter__", "__defineSetter__", "__lookupGetter__", "__lookupSetter__"]

/-- Shallow embedding of getFallbackResponse: the JS property access
fallbacks[currentGameState] first finds the two own entries, then walks
the prototype chain — a label naming an Object.prototype member yields
that truthy inherited member, so the || default never fires there; every
other unmapped label gives undefined and the home_full_health default is
returned.  Total as a Lean function, but it produces a scene record only
in the record cases. -/
def getFallbackResponse (currentGameState : String) : FallbackLookup :=
  if currentGameState = "home_full_health" then .record fallbackHomeFullHealth
  else if currentGameState = "forest_encounter" then .record fallbackForestEncounter
  else if currentGameState ∈ objectProtoKeys then .protoMember currentGameState
  else .record fallbackHomeFullHealth

/-- Shallow embedding of getInitialGameState: the canonical opening scene. -/
def getInitialGameState : GameResponse :=
  { emojiScene := "🏠👤💰💰💰❤️❤️❤️"
    description := "Welcome to Emoji RPG! You are home with 3 gold and full health."
    options := ["⚔️ Fight", "🌲 Forest", "💤 Rest"]
    newGameState := "home_full_health"
    ttsText := "Welcome to emoji RPG game! You are home with full health. What do you want to do?" }

/-- Modelled from the spec: the audio services module
(src/server/src/services/openai, file with transcribeAudio, generateSpeech
and validateAudioSize) is not present among the sources; per the spec the
request carries a base64 audio payload and the size limit is measured on
the decoded byte length.  A present, non-empty payload is modelled by its
decoded byte count. -/
structure AudioBlob where
  decodedLength : Nat
deriving DecidableEq

/-- Modelled from the spec: validateAudioSize is absent from the sources;
per the spec the encoded audio payload must not exceed a fixed 10 MiB
ceiling measured on the decoded byte length. -/
def validateAudioSize (blob : AudioBlob) : Bool :=
  decide (blob.decodedLength ≤ 10 * 1024 * 1024)

/-- Outcome of the raw speech-to-text upstream call: either an upstream
error or some transcript text. -/
inductive TransOutcome where
  | upstreamError (msg : String)
  | transcript (text : String)
deriving DecidableEq

/-- Whether a string is empty or whitespace-only: the embedding of the
JavaScript test s.trim().length === 0. -/
def isBlank (s : String) : Bool :=
  s.data.all (fun c => c.isWhitespace)

/-- Modelled from the spec: transcribeAudio is absent from the sources;
per the spec the Speech Transcriber fails with a TranscriptionFailure on
upstream error or on an empty/whitespace-only result (an empty result is
explicitly treated as failure, not as valid silence). -/
def transcribeAudio (o : TransOutcome) : Except String String :=
  match o with
  | .upstreamError m => .error m
  | .transcript t => if isBlank t then .error "Empty transcription result" else .ok t

/-- Oracles for the three external AI services: for every input, the
outcome the external call would produce on this request. -/
structure Upstream where
  transcriptionOf : AudioBlob → TransOutcome
  generatorOutput : String → String → GenOutcome
  speechFor : String → Except String String

/-- The request body of POST /api/voice-action.  Optional JSON fields are
Options; gameState is an Option as well because the handler must reject
bodies in which it is absent. -/
structure VoiceActionRequest where
  action : Option String := none
  audioData : Option AudioBlob := none
  gameState : Option String := none
  audioFormat : Option String := none
deriving DecidableEq

/-- The success body of POST /api/voice-action: the scene fields plus the
optional synthesized audio (base64), the optional transcription, and the
fallback indicator. -/
structure VoiceActionResponse where
  emojiScene : String
  description : String
  options : List String
  newGameState : String
  ttsText : String
  audioData : Option String
  transcription : Option String
  fallbackUsed : Bool
deriving DecidableEq

/-- The handler result: a 200 JSON body, a degraded 200 whose body came
from spreading a non-record fallback-lookup value (the spread of an
inherited Object.prototype member contributes no enumerable properties,
so the body carries only the explicitly set audioData, transcription and
fallbackUsed fields), or a 400 client error with a message and optional
details.  The 500 catch-all branches of the source are unreachable in
this pure embedding (nothing in the modelled pipeline throws outside the
try/catch blocks already accounted for), so they have no constructor. -/
inductive HandlerResult where
  | ok (body : VoiceActionResponse)
  | okDegraded (audioData : Option String) (transcription : Option String) (fallbackUsed : Bool)
  | clientError (msg : String) (details : Option String)
deriving DecidableEq

/-- A record of one upstream call issued while serving a request.  The
last constructor records the synthesis attempt the source makes with an
undefined ttsText (reading .ttsText off a non-record fallback value). -/
inductive UpstreamCall where
  | transcriptionCall (blob : AudioBlob)
  | generationCall (playerAction gameState : String)
  | synthesisCall (text : String)
  | synthesisCallNoText
deriving DecidableEq

/-- The tail of the pipeline once a player action has been resolved:
generation (with fallback-lookup substitution on failure), best-effort
speech synthesis, response assembly.  When the fallback lookup yields an
inherited Object.prototype member instead of a record, the source reads
.ttsText off it (undefined) and calls generateSpeech with that undefined
value — per the synthesizer contract (spec 4.4: non-empty text in, audio
out, SynthesisFailure otherwise) that attempt cannot succeed, so it is
modelled as failing — and then spreads the non-record into the body,
yielding the degraded 200.  Returns the result with the calls issued. -/
def afterResolve (w : Upstream) (gs a : String) (tr : Option String) (fb : Bool) :
    HandlerResult × List UpstreamCall :=
  match generateGameResponse (w.generatorOutput a gs) with
  | .ok g =>
    (.ok { emojiScene := g.emojiScene
           description := g.description
           options := g.options
           newGameState := g.newGameState
           ttsText := g.ttsText
           audioData := (w.speechFor g.ttsText).toOption
           transcription := tr
           fallbackUsed := fb },
     [.generationCall a gs, .synthesisCall g.ttsText])
  | .error _ =>
    match getFallbackResponse gs with
    | .record g =>
      (.ok { emojiScene := g.emojiScene
             description := g.description
             options := g.options
             newGameState := g.newGameState
             ttsText := g.ttsText
             audioData := (w.speechFor g.ttsText).toOption
             transcription := tr
             fallbackUsed := true },
       [.generationCall a gs, .synthesisCall g.ttsText])
    | .protoMember _ =>
      (.okDegraded none tr true, [.generationCall a gs, .synthesisCallNoText])

/-- The catch branch of the audio-processing block: fall back to the text
action when one was supplied (JS truthiness: a present empty string does
not count), otherwise a 400 naming the audio failure.  On success it
yields (playerAction, transcription variable value, fallbackUsed). -/
def fallbackAfterAudioFailure (req : VoiceActionRequest) (tr : Option String)
    (details : String) : Except (String × String) (String × Option String × Bool) :=
  match req.action with
  | some a =>
    if a = "" then .error ("Failed to process audio and no text fallback provided", details)
    else .ok (a, tr, true)
  | none => .error ("Failed to process audio and no text fallback provided", details)

/-- The non-initial part of the handler: resolve the player action from
audio (size check, transcription, text fallback) or from the text action,
then run the generation/synthesis tail. -/
def mainFlow (w : Upstream) (req : VoiceActionRequest) (gs : String) :
    HandlerResult × List UpstreamCall :=
  match req.audioData with
  | some blob =>
    if validateAudioSize blob = false then
      (.clientError "Audio file too large (max 10MB)" none, [])
    else
      let rest :=
        match transcribeAudio (w.transcriptionOf blob) with
        | .ok t =>
          if isBlank t then
            match fallbackAfterAudioFailure req (some t) "Empty transcription" with
            | .ok x => afterResolve w gs x.1 x.2.1 x.2.2
            | .error e => (.clientError e.1 (some e.2), [])
          else afterResolve w gs t (some t) false
        | .error m =>
          match fallbackAfterAudioFailure req none m with
          | .ok x => afterResolve w gs x.1 x.2.1 x.2.2
          | .error e => (.clientError e.1 (some e.2), [])
      (rest.1, .transcriptionCall blob :: rest.2)
  | none =>
    match req.action with
    | some a =>
      if a = "" then (.clientError "Either audioData or action must be provided" none, [])
      else afterResolve w gs a none false
    | none => (.clientError "Either audioData or action must be provided" none, [])

/-- The new-session branch of the handler: best-effort synthesis for the
canonical opening scene, then an immediate 200 with fallbackUsed false. -/
def initialResponsePair (w : Upstream) : HandlerResult × List UpstreamCall :=
  (.ok { emojiScene := getInitialGameState.emojiScene
         description := getInitialGameState.description
         options := getInitialGameState.options
         newGameState := getInitialGameState.newGameState
         ttsText := getInitialGameState.ttsText
         audioData := (w.speechFor getInitialGameState.ttsText).toOption
         transcription := none
         fallbackUsed := false },
   [.synthesisCall getInitialGameState.ttsText])

/-- Shallow embedding of the POST /api/voice-action handler, returning the
HTTP-level result together with the upstream calls issued while serving
the request. -/
def handleVoiceAction (w : Upstream) (req : VoiceActionRequest) :
    HandlerResult × List UpstreamCall :=
  match req.gameState with
  | none => (.clientError "gameState is required" none, [])
  | some gs =>
    if gs = "" then (.clientError "gameState is required" none, [])
    else if gs = "initial" ∨ gs = "new_game" then initialResponsePair w
    else mainFlow w req gs

/-- The synthesized-audio field of a handler result, when present. -/
def responseAudio : HandlerResult → Option String
  | .ok r => r.audioData
  | .okDegraded a _ _ => a
  | .clientError _ _ => none

/-- A handler result with its synthesized-audio field removed. -/
def withoutAudio : HandlerResult → HandlerResult
  | .ok r => .ok { r with audioData := none }
  | .okDegraded _ tr fb => .okDegraded none tr fb
  | .clientError m d => .clientError m d

/-- The fallbackUsed flag carried by a 200 body (full or degraded). -/
def bodyFallbackUsed : HandlerResult → Option Bool
  | .ok r => some r.fallbackUsed
  | .okDegraded _ _ fb => some fb
  | .clientError _ _ => none

/-- The SceneRecord invariant of the data model: the five fields present
and non-empty, 2-4 options, and 6-12 symbols in the emoji scene (counted
as Unicode code points, exactly as the source counts [...emojiScene].length). -/
def sceneRecordInvariant (g : GameResponse) : Prop :=
  g.emojiScene ≠ "" ∧ g.description ≠ "" ∧ g.options ≠ [] ∧ g.newGameState ≠ ""
    ∧ g.ttsText ≠ "" ∧ 2 ≤ g.options.length ∧ g.options.length ≤ 4
    ∧ 6 ≤ g.emojiScene.length ∧ g.emojiScene.length ≤ 12

/-- A transcript accepted by the Speech Transcriber is never blank: the
ok branch of transcribeAudio is guarded by the whitespace check. -/
theorem transcribeAudio_ok_not_blank (o : TransOutcome) (t : String)
    (h : transcribeAudio o = .ok t) : isBlank t = false := by
  cases o with
  | upstreamError m => simp [transcribeAudio] at h
  | transcript s =>
    by_cases hs : isBlank s
    · simp [transcribeAudio, hs] at h
    · simp [transcribeAudio, hs] at h
      subst h
      simpa using hs

/-- JS truthiness of an optional string is false exactly when the field,
defaulted to the empty string, is empty. -/
theorem truthy_eq_false_iff (x : Option String) : truthy x = false ↔ x.getD "" = "" := by
  cases x with
  | none => simp [truthy]
  | some s => simp [truthy]

/-- Exhaustive description of the branches the voice-action handler can
take, with the request-shape and oracle-outcome conditions that select
each branch and the value the handler returns there. -/
inductive HandlerPath (w : Upstream) (req : VoiceActionRequest) : Prop where
  | missingState
      (hgs : req.gameState = none ∨ req.gameState = some "")
      (he : handleVoiceAction w req = (.clientError "gameState is required" none, []))
  | newSession (gs : String)
      (hgs : req.gameState = some gs) (hi : gs = "initial" ∨ gs = "new_game")
      (he : handleVoiceAction w req = initialResponsePair w)
  | oversized (gs : String) (blob : AudioBlob)
      (hgs : req.gameState = some gs) (h0 : gs ≠ "") (h1 : gs ≠ "initial") (h2 : gs ≠ "new_game")
      (haud : req.audioData = some blob)
      (hsz : validateAudioSize blob = false)
      (he : handleVoiceAction w req = (.clientError "Audio file too large (max 10MB)" none, []))
  | audioReject (gs m : String) (blob : AudioBlob)
      (hgs : req.gameState = some gs) (h0 : gs ≠ "") (h1 : gs ≠ "initial") (h2 : gs ≠ "new_game")
      (haud : req.audioData = some blob) (hsz : validateAudioSize blob = true)
      (htr : transcribeAudio (w.transcriptionOf blob) = .error m)
      (hact : req.action = none ∨ req.action = some "")
      (he : handleVoiceAction w req =
        (.clientError "Failed to process audio and no text fallback provided" (some m),
         [UpstreamCall.transcriptionCall blob]))
  | audioFallback (gs m a : String) (blob : AudioBlob)
      (hgs : req.gameState = some gs) (h0 : gs ≠ "") (h1 : gs ≠ "initial") (h2 : gs ≠ "new_game")
      (haud : req.audioData = some blob) (hsz : validateAudioSize blob = true)
      (htr : transcribeAudio (w.transcriptionOf blob) = .error m)
      (hact : req.action = some a) (ha : a ≠ "")
      (he : handleVoiceAction w req =
        ((afterResolve w gs a none true).1,
         UpstreamCall.transcriptionCall blob :: (afterResolve w gs a none true).2))
  | audioSuccess (gs t : String) (blob : AudioBlob)
      (hgs : req.gameState = some gs) (h0 : gs ≠ "") (h1 : gs ≠ "initial") (h2 : gs ≠ "new_game")
      (haud : req.audioData = some blob) (hsz : validateAudioSize blob = true)
      (htr : transcribeAudio (w.transcriptionOf blob) = .ok t)
      (he : handleVoiceAction w req =
        ((afterResolve w gs t (some t) false).1,
         UpstreamCall.transcriptionCall blob :: (afterResolve w gs t (some t) false).2))
  | textOnly (gs a : String)
      (hgs : req.gameState = some gs) (h0 : gs ≠ "") (h1 : gs ≠ "initial") (h2 : gs ≠ "new_game")
      (haud : req.audioData = none)
      (hact : req.action = some a) (ha : a ≠ "")
      (he : handleVoiceAction w req = afterResolve w gs a none false)
  | noInput (gs : String)
      (hgs : req.gameState = some gs) (h0 : gs ≠ "") (h1 : gs ≠ "initial") (h2 : gs ≠ "new_game")
      (haud : req.audioData = none)
      (hact : req.action = none ∨ req.action = some "")
      (he : handleVoiceAction w req =
        (.clientError "Either audioData or action must be provided" none, []))

/-- Every run of the handler takes one of the branches of HandlerPath. -/
theorem handler_path (w : Upstream) (req : VoiceActionRequest) : HandlerPath w req := by
  rcases hgs : req.gameState with _ | gs
  · exact .missingState (Or.inl hgs) (by simp [handleVoiceAction, hgs])
  · by_cases h0 : gs = ""
    · subst h0
      exact .missingState (Or.inr hgs) (by simp [handleVoiceAction, hgs])
    · by_cases hi : gs = "initial" ∨ gs = "new_game"
      · exact .newSession gs hgs hi (by simp [handleVoiceAction, hgs, h0, hi])
      · push_neg at hi
        obtain ⟨h1, h2⟩ := hi
        rcases haud : req.audioData with _ | blob
        · rcases hact : req.action with _ | a
          · exact .noInput gs hgs h0 h1 h2 haud (Or.inl hact)
              (by simp [handleVoiceAction, mainFlow, hgs, h0, h1, h2, haud, hact])
          · by_cases ha : a = ""
            · subst ha
              exact .noInput gs hgs h0 h1 h2 haud (Or.inr hact)
                (by simp [handleVoiceAction, mainFlow, hgs, h0, h1, h2, haud, hact])
            · exact .textOnly gs a hgs h0 h1 h2 haud hact ha
                (by simp [handleVoiceAction, mainFlow, hgs, h0, h1, h2, haud, hact, ha])
        · by_cases hsz : validateAudioSize blob = false
          · exact .oversized gs blob hgs h0 h1 h2 haud hsz
              (by simp [handleVoiceAction, mainFlow, hgs, h0, h1, h2, haud, hsz])
          · rw [Bool.not_eq_false] at hsz
            cases htr : transcribeAudio (w.transcriptionOf blob) with
            | error m =>
              rcases hact : req.action with _ | a
              · exact .audioReject gs m blob hgs h0 h1 h2 haud hsz htr (Or.inl hact)
                  (by simp [handleVoiceAction, mainFlow, fallbackAfterAudioFailure,
                        hgs, h0, h1, h2, haud, hsz, htr, hact])
              · by_cases ha : a = ""
                · subst ha
                  exact .audioReject gs m blob hgs h0 h1 h2 haud hsz htr (Or.inr hact)
                    (by simp [handleVoiceAction, mainFlow, fallbackAfterAudioFailure,
                          hgs, h0, h1, h2, haud, hsz, htr, hact])
                · exact .audioFallback gs m a blob hgs h0 h1 h2 haud hsz htr hact ha
                    (by simp [handleVoiceAction, mainFlow, fallbackAfterAudioFailure,
                          hgs, h0, h1, h2, haud, hsz, htr, hact, ha])
            | ok t =>
              have hnb : isBlank t = false := transcribeAudio_ok_not_blank _ _ htr
              exact .audioSuccess gs t blob hgs h0 h1 h2 haud hsz htr
                (by simp [handleVoiceAction, mainFlow, hgs, h0, h1, h2, haud, hsz, htr, hnb])

/-- At any label outside the Object.prototype member names, the fallback
lookup produces a scene record. -/
theorem getFallbackResponse_record_of_not_proto (l : String)
    (h : l ∉ objectProtoKeys) :
    ∃ g, getFallbackResponse l = FallbackLookup.record g := by
  by_cases h1 : l = "home_full_health"
  · exact ⟨fallbackHomeFullHealth, by simp [getFallbackResponse, h1]⟩
  · by_cases h2 : l = "forest_encounter"
    · exact ⟨fallbackForestEncounter, by simp [getFallbackResponse, h1, h2]⟩
    · exact ⟨fallbackHomeFullHealth, by simp [getFallbackResponse, h1, h2, h]⟩

/-- The generation call recorded in the tail's trace carries exactly the
resolved player action and the submitted state label. -/
theorem generation_call_mem_afterResolve (w : Upstream) (gs2 a2 : String)
    (tr : Option String) (fb : Bool) (a gs : String)
    (h : UpstreamCall.generationCall a gs ∈ (afterResolve w gs2 a2 tr fb).2) :
    a = a2 ∧ gs = gs2 := by
  cases hgen : generateGameResponse (w.generatorOutput a2 gs2) with
  | ok g =>
    simp [afterResolve, hgen] at h
    exact h
  | error e2 =>
    cases hlook : getFallbackResponse gs2 with
    | record g =>
      simp [afterResolve, hgen, hlook] at h
      exact h
    | protoMember n =>
      simp [afterResolve, hgen, hlook] at h
      exact h

/-- The tail result stripped of audio does not depend on the synthesizer
oracle. -/
theorem afterResolve_stripped_speech_indep (t : AudioBlob → TransOutcome)
    (g : String → String → GenOutcome) (s1 s2 : String → Except String String)
    (gs a : String) (tr : Option String) (fb : Bool) :
    withoutAudio (afterResolve ⟨t, g, s1⟩ gs a tr fb).1 =
      withoutAudio (afterResolve ⟨t, g, s2⟩ gs a tr fb).1 := by
  cases hgen : generateGameResponse (g a gs) with
  | ok gr => simp [afterResolve, hgen, withoutAudio]
  | error e2 =>
    cases hlook : getFallbackResponse gs with
    | record gr => simp [afterResolve, hgen, hlook, withoutAudio]
    | protoMember n => simp [afterResolve, hgen, hlook, withoutAudio]

/-- When synthesis fails on every text, the tail's 200 carries no audio. -/
theorem afterResolve_responseAudio_none (w : Upstream) (gs a : String)
    (tr : Option String) (fb : Bool)
    (hfa : ∀ s, (w.speechFor s).toOption = none) :
    responseAudio (afterResolve w gs a tr fb).1 = none := by
  cases hgen : generateGameResponse (w.generatorOutput a gs) with
  | ok g => simp [afterResolve, hgen, responseAudio, hfa]
  | error e2 =>
    cases hlook : getFallbackResponse gs with
    | record g => simp [afterResolve, hgen, hlook, responseAudio, hfa]
    | protoMember n => simp [afterResolve, hgen, hlook, responseAudio]

/-- With the input-fallback flag set, the tail always answers 200 with
fallbackUsed true in the body, full or degraded. -/
theorem afterResolve_bodyFallbackUsed (w : Upstream) (gs a : String)
    (tr : Option String) :
    bodyFallbackUsed (afterResolve w gs a tr true).1 = some true := by
  cases hgen : generateGameResponse (w.generatorOutput a gs) with
  | ok g => simp [afterResolve, hgen, bodyFallbackUsed]
  | error e2 =>
    cases hlook : getFallbackResponse gs with
    | record g => simp [afterResolve, hgen, hlook, bodyFallbackUsed]
    | protoMember n => simp [afterResolve, hgen, hlook, bodyFallbackUsed]

/-- A world in which every external AI call fails. -/
def wAllFail : Upstream :=
  { transcriptionOf := fun _ => .upstreamError "service unavailable"
    generatorOutput := fun _ _ => .apiError
    speechFor := fun _ => .error "synthesis unavailable" }

/-- A small in-limit audio payload. -/
def smallBlob : AudioBlob := { decodedLength := 2048 }

/-- A payload decoding to one byte over the 10 MiB ceiling. -/
def bigBlob : AudioBlob := { decodedLength := 10 * 1024 * 1024 + 1 }

/-- A request with no gameState field. -/
def reqNoState : VoiceActionRequest := { action := some "look around" }

/-- A text-action request against the forest_encounter state. -/
def reqTextForest : VoiceActionRequest :=
  { action := some "go to the forest", gameState := some "forest_encounter" }

/-- A request with gameState new_game. -/
def reqNewGame : VoiceActionRequest := { gameState := some "new_game" }

/-- A request with gameState initial. -/
def reqInitial : VoiceActionRequest := { gameState := some "initial" }

/-- A request carrying an oversized audio payload. -/
def reqBigAudio : VoiceActionRequest :=
  { audioData := some bigBlob, gameState := some "home_full_health" }

/-- A request carrying both a small audio payload and a text action. -/
def reqAudioAndText : VoiceActionRequest :=
  { action := some "look around", audioData := some smallBlob,
    gameState := some "home_full_health" }

/-- Claim C6: a request missing the gameState field is rejected with the
client error, and the empty call trace shows that no upstream call
(transcription, generation or synthesis) is attempted, whatever the
oracles would answer. -/
theorem missing_game_state_rejected (w : Upstream) (req : VoiceActionRequest)
    (h : req.gameState = none) :
    handleVoiceAction w req = (.clientError "gameState is required" none, []) := by
  simp [handleVoiceAction, h]

theorem missing_game_state_rejected_witness :
    handleVoiceAction wAllFail reqNoState = (.clientError "gameState is required" none, []) :=
  missing_game_state_rejected wAllFail reqNoState rfl

/-- A request carrying an oversized audio payload and gameState new_game. -/
def reqBigNewGame : VoiceActionRequest :=
  { audioData := some bigBlob, gameState := some "new_game" }

/-- Claim C5 counterexample: the new-session branch returns before the
audio block is reached, so a request whose payload decodes over the
10 MiB ceiling but whose gameState is new_game is answered 200 with the
canonical opening scene, not with a client error. -/
theorem oversized_new_game_answered_ok :
    10 * 1024 * 1024 < bigBlob.decodedLength
    ∧ handleVoiceAction wAllFail reqBigNewGame =
        (.ok { emojiScene := getInitialGameState.emojiScene
               description := getInitialGameState.description
               options := getInitialGameState.options
               newGameState := "home_full_health"
               ttsText := getInitialGameState.ttsText
               audioData := none
               transcription := none
               fallbackUsed := false },
         [UpstreamCall.synthesisCall getInitialGameState.ttsText]) :=
  ⟨by decide, rfl⟩

/-- Claim C5 (amended): a request whose audio payload decodes to more
than the 10 MiB ceiling and whose gameState is not a new-session label
(initial or new_game) is answered with a client error and an empty call
trace — so transcription is never attempted on that payload, whatever
the oracles would answer; when the gameState is present and non-empty
the error is specifically the audio size rejection. -/
theorem oversized_payload_rejected (w : Upstream) (req : VoiceActionRequest)
    (blob : AudioBlob)
    (haud : req.audioData = some blob)
    (hbig : 10 * 1024 * 1024 < blob.decodedLength)
    (hni : req.gameState ≠ some "initial") (hnn : req.gameState ≠ some "new_game") :
    (∃ msg, handleVoiceAction w req = (.clientError msg none, []))
    ∧ (∀ gs : String, req.gameState = some gs → gs ≠ "" →
        handleVoiceAction w req =
          (.clientError "Audio file too large (max 10MB)" none, [])) := by
  have hsz : validateAudioSize blob = false := by
    simp only [validateAudioSize, decide_eq_false_iff_not, not_le]
    exact hbig
  have main : ∀ gs : String, req.gameState = some gs → gs ≠ "" →
      handleVoiceAction w req =
        (.clientError "Audio file too large (max 10MB)" none, []) := by
    intro gs hgs hg0
    have hg1 : gs ≠ "initial" := fun hx => hni (hx ▸ hgs)
    have hg2 : gs ≠ "new_game" := fun hx => hnn (hx ▸ hgs)
    simp [handleVoiceAction, mainFlow, hgs, hg0, hg1, hg2, haud, hsz]
  refine ⟨?_, main⟩
  rcases hgs : req.gameState with _ | gs
  · exact ⟨"gameState is required", by simp [handleVoiceAction, hgs]⟩
  · by_cases hg0 : gs = ""
    · subst hg0
      exact ⟨"gameState is required", by simp [handleVoiceAction, hgs]⟩
    · exact ⟨"Audio file too large (max 10MB)", main gs hgs hg0⟩

theorem oversized_payload_rejected_witness :
    handleVoiceAction wAllFail reqBigAudio =
      (.clientError "Audio file too large (max 10MB)" none, []) :=
  (oversized_payload_rejected wAllFail reqBigAudio bigBlob rfl (by decide)
    (by decide) (by decide)).2 "home_full_health" rfl (by decide)

/-- Claim C2: for every valid request with gameState new_game the handler
returns the canonical opening record with newGameState home_full_health
and fallbackUsed false; the synthesized audio is the best-effort toOption
of the synthesizer result (none when synthesis fails), and the call trace
contains only the synthesis call, so the Scene Generator is never invoked
on this path. -/
theorem new_game_canonical_opening (w : Upstream) (req : VoiceActionRequest)
    (h : req.gameState = some "new_game") :
    handleVoiceAction w req =
      (.ok { emojiScene := getInitialGameState.emojiScene
             description := getInitialGameState.description
             options := getInitialGameState.options
             newGameState := "home_full_health"
             ttsText := getInitialGameState.ttsText
             audioData := (w.speechFor getInitialGameState.ttsText).toOption
             transcription := none
             fallbackUsed := false },
       [UpstreamCall.synthesisCall getInitialGameState.ttsText]) := by
  simp [handleVoiceAction, initialResponsePair, h]
  rfl

theorem new_game_canonical_opening_witness :
    handleVoiceAction wAllFail reqNewGame =
      (.ok { emojiScene := getInitialGameState.emojiScene
             description := getInitialGameState.description
             options := getInitialGameState.options
             newGameState := "home_full_health"
             ttsText := getInitialGameState.ttsText
             audioData := none
             transcription := none
             fallbackUsed := false },
       [UpstreamCall.synthesisCall getInitialGameState.ttsText]) :=
  new_game_canonical_opening wAllFail reqNewGame rfl

/-- Claim C9 counterexample: at the unmapped label valueOf the source
lookup finds the truthy inherited Object.prototype member, so it
produces no scene record at all — in particular none satisfying the
invariant. -/
theorem fallback_lookup_at_proto_label_not_a_record :
    getFallbackResponse "valueOf" = FallbackLookup.protoMember "valueOf" := rfl

/-- Claim C9 (amended): every scene record the fallback lookup actually
produces — the two table entries and the default, i.e. at every label
that is not an Object.prototype member name — and the initial-game-state
record satisfy the SceneRecord invariant (five non-empty fields, 2-4
options, 6-12 symbols in the emoji scene, counted as Unicode code points
exactly as the source counts them); at Object.prototype member names the
lookup yields the inherited member and no record. -/
theorem fallback_and_initial_satisfy_invariant :
    (∀ l : String, ∀ g : GameResponse,
        getFallbackResponse l = FallbackLookup.record g → sceneRecordInvariant g)
      ∧ sceneRecordInvariant getInitialGameState := by
  have hh : sceneRecordInvariant fallbackHomeFullHealth := by
    unfold sceneRecordInvariant
    decide
  have hf : sceneRecordInvariant fallbackForestEncounter := by
    unfold sceneRecordInvariant
    decide
  have hi : sceneRecordInvariant getInitialGameState := by
    unfold sceneRecordInvariant
    decide
  refine ⟨fun l g hl => ?_, hi⟩
  unfold getFallbackResponse at hl
  split at hl
  · simp only [FallbackLookup.record.injEq] at hl
    subst hl
    exact hh
  · split at hl
    · simp only [FallbackLookup.record.injEq] at hl
      subst hl
      exact hf
    · split at hl
      · simp at hl
      · simp only [FallbackLookup.record.injEq] at hl
        subst hl
        exact hh

theorem fallback_and_initial_satisfy_invariant_witness :
    sceneRecordInvariant fallbackForestEncounter :=
  fallback_and_initial_satisfy_invariant.1 "forest_encounter" fallbackForestEncounter rfl

/-- Claim C10: exactly the labels initial and new_game trigger the
new-session path (any other non-empty label is routed to the main flow);
both produce the same canonical opening response whose newGameState is
home_full_health, which is also the key of the fallback-table entry
served as the || default for every unmapped label outside the
Object.prototype member names. -/
theorem new_session_labels_and_default_key
    (w : Upstream) (req1 req2 : VoiceActionRequest)
    (h1 : req1.gameState = some "initial") (h2 : req2.gameState = some "new_game") :
    handleVoiceAction w req1 = handleVoiceAction w req2
    ∧ handleVoiceAction w req1 = initialResponsePair w
    ∧ (∃ r, (handleVoiceAction w req1).1 = .ok r ∧ r.newGameState = "home_full_health"
        ∧ r.fallbackUsed = false)
    ∧ getInitialGameState.newGameState = "home_full_health"
    ∧ getFallbackResponse "home_full_health" = FallbackLookup.record fallbackHomeFullHealth
    ∧ (∀ l : String, l ∉ objectProtoKeys → l ≠ "home_full_health" →
        l ≠ "forest_encounter" →
        getFallbackResponse l = FallbackLookup.record fallbackHomeFullHealth)
    ∧ (∀ req3 : VoiceActionRequest, ∀ gs : String, req3.gameState = some gs →
        gs ≠ "" → gs ≠ "initial" → gs ≠ "new_game" →
        handleVoiceAction w req3 = mainFlow w req3 gs) := by
  have e1 : handleVoiceAction w req1 = initialResponsePair w := by
    simp [handleVoiceAction, h1]
  have e2 : handleVoiceAction w req2 = initialResponsePair w := by
    simp [handleVoiceAction, h2]
  refine ⟨e1.trans e2.symm, e1, ?_, rfl, by simp [getFallbackResponse], ?_, ?_⟩
  · rw [e1]
    exact ⟨_, rfl, rfl, rfl⟩
  · intro l hp hl1 hl2
    simp [getFallbackResponse, hp, hl1, hl2]
  · intro req3 gs hgs hg0 hg1 hg2
    simp [handleVoiceAction, hgs, hg0, hg1, hg2]

theorem new_session_labels_and_default_key_witness :
    handleVoiceAction wAllFail reqInitial = handleVoiceAction wAllFail reqNewGame :=
  (new_session_labels_and_default_key wAllFail reqInitial reqNewGame rfl rfl).1

/-- A text-action request against the prototype-inherited label toString. -/
def reqTextProto : VoiceActionRequest :=
  { action := some "explore the house", gameState := some "toString" }

/-- Claim C1 counterexample: at the unmapped label toString the fallback
lookup returns the truthy inherited Object.prototype member rather than
a scene record, so the || default is never served; with generation
failing, the request is answered 200 with a body that carries no scene
fields at all — not the default table entry. -/
theorem generation_failure_at_proto_label_degrades :
    getFallbackResponse "toString" = FallbackLookup.protoMember "toString"
    ∧ handleVoiceAction wAllFail reqTextProto =
        (.okDegraded none none true,
         [UpstreamCall.generationCall "explore the house" "toString",
          UpstreamCall.synthesisCallNoText]) :=
  ⟨rfl, rfl⟩

/-- Claim C1 (amended): whenever the handler invoked the Scene Generator
with some player action and state label (witnessed by the generation
call in the trace), that generation failed, and the label is not an
Object.prototype member name, the 200 response carries exactly the
fallback-lookup record for the submitted state label with fallbackUsed
true (synthesis still attempted best-effort on its speech text); the
lookup is a total pure function serving the default home_full_health
entry at every genuinely unmapped label, but at labels naming
Object.prototype members it yields the truthy inherited member instead
of a scene record, and the response then degrades to a scene-less 200. -/
theorem generation_failure_yields_fallback_scene
    (w : Upstream) (req : VoiceActionRequest) (a gs e : String)
    (hcall : UpstreamCall.generationCall a gs ∈ (handleVoiceAction w req).2)
    (hfail : generateGameResponse (w.generatorOutput a gs) = .error e)
    (hproto : gs ∉ objectProtoKeys) :
    (∃ g tr, getFallbackResponse gs = FallbackLookup.record g
      ∧ (handleVoiceAction w req).1 =
        .ok { emojiScene := g.emojiScene
              description := g.description
              options := g.options
              newGameState := g.newGameState
              ttsText := g.ttsText
              audioData := (w.speechFor g.ttsText).toOption
              transcription := tr
              fallbackUsed := true })
    ∧ (∀ l : String, l ∉ objectProtoKeys → l ≠ "home_full_health" →
        l ≠ "forest_encounter" →
        getFallbackResponse l = FallbackLookup.record fallbackHomeFullHealth)
    ∧ (∀ l : String, l ∈ objectProtoKeys →
        getFallbackResponse l = FallbackLookup.protoMember l) := by
  refine ⟨?_, ?_, ?_⟩
  · cases handler_path w req with
    | missingState hgs he =>
      rw [he] at hcall
      simp at hcall
    | newSession gs2 hgs hi he =>
      rw [he] at hcall
      simp [initialResponsePair] at hcall
    | oversized gs2 blob hgs h0 h1 h2 haud hsz he =>
      rw [he] at hcall
      simp at hcall
    | audioReject gs2 m blob hgs h0 h1 h2 haud hsz htr hact he =>
      rw [he] at hcall
      simp at hcall
    | audioFallback gs2 m a2 blob hgs h0 h1 h2 haud hsz htr hact ha he =>
      rw [he] at hcall
      simp only [List.mem_cons] at hcall
      rcases hcall with hx | hx
      · simp at hx
      · obtain ⟨rfl, rfl⟩ := generation_call_mem_afterResolve w gs2 a2 none true a gs hx
        obtain ⟨g, hgrec⟩ := getFallbackResponse_record_of_not_proto _ hproto
        refine ⟨g, none, hgrec, ?_⟩
        rw [he]
        simp [afterResolve, hfail, hgrec]
    | audioSuccess gs2 t blob hgs h0 h1 h2 haud hsz htr he =>
      rw [he] at hcall
      simp only [List.mem_cons] at hcall
      rcases hcall with hx | hx
      · simp at hx
      · obtain ⟨rfl, rfl⟩ := generation_call_mem_afterResolve w gs2 t (some t) false a gs hx
        obtain ⟨g, hgrec⟩ := getFallbackResponse_record_of_not_proto _ hproto
        refine ⟨g, some a, hgrec, ?_⟩
        rw [he]
        simp [afterResolve, hfail, hgrec]
    | textOnly gs2 a2 hgs h0 h1 h2 haud hact ha he =>
      rw [he] at hcall
      obtain ⟨rfl, rfl⟩ := generation_call_mem_afterResolve w gs2 a2 none false a gs hcall
      obtain ⟨g, hgrec⟩ := getFallbackResponse_record_of_not_proto _ hproto
      refine ⟨g, none, hgrec, ?_⟩
      rw [he]
      simp [afterResolve, hfail, hgrec]
    | noInput gs2 hgs h0 h1 h2 haud hact he =>
      rw [he] at hcall
      simp at hcall
  · intro l hp hl1 hl2
    simp [getFallbackResponse, hp, hl1, hl2]
  · intro l hp
    have hl1 : l ≠ "home_full_health" := by
      rintro rfl
      revert hp
      decide
    have hl2 : l ≠ "forest_encounter" := by
      rintro rfl
      revert hp
      decide
    simp [getFallbackResponse, hp, hl1, hl2]

theorem generation_failure_yields_fallback_scene_witness :
    ∃ g tr, getFallbackResponse "forest_encounter" = FallbackLookup.record g
      ∧ (handleVoiceAction wAllFail reqTextForest).1 =
        .ok { emojiScene := g.emojiScene
              description := g.description
              options := g.options
              newGameState := g.newGameState
              ttsText := g.ttsText
              audioData := (wAllFail.speechFor g.ttsText).toOption
              transcription := tr
              fallbackUsed := true } :=
  (generation_failure_yields_fallback_scene wAllFail reqTextForest "go to the forest"
    "forest_encounter" "Failed to generate game response" (by decide) rfl (by decide)).1

/-- Claim C3: when a present, in-limit audio payload fails transcription
(upstream error or blank transcript), the handler proceeds with the
supplied text action and marks fallbackUsed when a non-empty action text
was supplied, and otherwise answers with the client error naming the
audio failure. -/
theorem transcription_failure_text_fallback_or_error
    (w : Upstream) (req : VoiceActionRequest) (gs m : String) (blob : AudioBlob)
    (hgs : req.gameState = some gs) (h0 : gs ≠ "") (h1 : gs ≠ "initial") (h2 : gs ≠ "new_game")
    (haud : req.audioData = some blob) (hsz : validateAudioSize blob = true)
    (hfail : transcribeAudio (w.transcriptionOf blob) = .error m) :
    (req.action = none →
      handleVoiceAction w req =
        (.clientError "Failed to process audio and no text fallback provided" (some m),
         [UpstreamCall.transcriptionCall blob]))
    ∧ (∀ a : String, req.action = some a → a ≠ "" →
        handleVoiceAction w req =
          ((afterResolve w gs a none true).1,
           UpstreamCall.transcriptionCall blob :: (afterResolve w gs a none true).2)
        ∧ bodyFallbackUsed (handleVoiceAction w req).1 = some true) := by
  constructor
  · intro hact
    simp [handleVoiceAction, mainFlow, fallbackAfterAudioFailure,
      hgs, h0, h1, h2, haud, hsz, hfail, hact]
  · intro a hact ha
    have he : handleVoiceAction w req =
        ((afterResolve w gs a none true).1,
         UpstreamCall.transcriptionCall blob :: (afterResolve w gs a none true).2) := by
      simp [handleVoiceAction, mainFlow, fallbackAfterAudioFailure,
        hgs, h0, h1, h2, haud, hsz, hfail, hact, ha]
    refine ⟨he, ?_⟩
    rw [he]
    exact afterResolve_bodyFallbackUsed w gs a none

theorem transcription_failure_text_fallback_or_error_witness :
    handleVoiceAction wAllFail reqAudioAndText =
      ((afterResolve wAllFail "home_full_health" "look around" none true).1,
       UpstreamCall.transcriptionCall smallBlob ::
         (afterResolve wAllFail "home_full_health" "look around" none true).2) :=
  ((transcription_failure_text_fallback_or_error wAllFail reqAudioAndText "home_full_health"
      "service unavailable" smallBlob rfl (by decide) (by decide) (by decide) rfl (by decide)
      rfl).2 "look around" rfl (by decide)).1

/-- Claim C4: the transcription field of a 200 response is populated only
when the audio payload was transcribed to a non-blank text that was then
adopted as the player action with the input-fallback flag false; in
particular it is never populated when the pipeline fell back from audio
to the supplied text action. -/
theorem transcription_field_only_on_adopted_transcript
    (w : Upstream) (req : VoiceActionRequest) (r : VoiceActionResponse) (t : String)
    (hok : (handleVoiceAction w req).1 = .ok r) (htr : r.transcription = some t) :
    ∃ blob gs, req.audioData = some blob ∧ req.gameState = some gs
      ∧ transcribeAudio (w.transcriptionOf blob) = .ok t ∧ isBlank t = false
      ∧ handleVoiceAction w req =
          ((afterResolve w gs t (some t) false).1,
           UpstreamCall.transcriptionCall blob :: (afterResolve w gs t (some t) false).2) := by
  cases handler_path w req with
  | missingState hgs he =>
    rw [he] at hok
    simp at hok
  | newSession gs hgs hi he =>
    rw [he] at hok
    simp [initialResponsePair] at hok
    subst hok
    simp at htr
  | oversized gs blob hgs h0 h1 h2 haud hsz he =>
    rw [he] at hok
    simp at hok
  | audioReject gs m blob hgs h0 h1 h2 haud hsz htr2 hact he =>
    rw [he] at hok
    simp at hok
  | audioFallback gs m a blob hgs h0 h1 h2 haud hsz htr2 hact ha he =>
    rw [he] at hok
    cases hgen : generateGameResponse (w.generatorOutput a gs) with
    | ok g =>
      simp [afterResolve, hgen] at hok
      subst hok
      simp at htr
    | error e2 =>
      cases hlook : getFallbackResponse gs with
      | record g =>
        simp [afterResolve, hgen, hlook] at hok
        subst hok
        simp at htr
      | protoMember n =>
        simp [afterResolve, hgen, hlook] at hok
  | audioSuccess gs t0 blob hgs h0 h1 h2 haud hsz htr2 he =>
    rw [he] at hok
    cases hgen : generateGameResponse (w.generatorOutput t0 gs) with
    | ok g =>
      simp [afterResolve, hgen] at hok
      subst hok
      simp at htr
      subst htr
      exact ⟨blob, gs, haud, hgs, htr2, transcribeAudio_ok_not_blank _ _ htr2, he⟩
    | error e2 =>
      cases hlook : getFallbackResponse gs with
      | record g =>
        simp [afterResolve, hgen, hlook] at hok
        subst hok
        simp at htr
        subst htr
        exact ⟨blob, gs, haud, hgs, htr2, transcribeAudio_ok_not_blank _ _ htr2, he⟩
      | protoMember n =>
        simp [afterResolve, hgen, hlook] at hok
  | textOnly gs a hgs h0 h1 h2 haud hact ha he =>
    rw [he] at hok
    cases hgen : generateGameResponse (w.generatorOutput a gs) with
    | ok g =>
      simp [afterResolve, hgen] at hok
      subst hok
      simp at htr
    | error e2 =>
      cases hlook : getFallbackResponse gs with
      | record g =>
        simp [afterResolve, hgen, hlook] at hok
        subst hok
        simp at htr
      | protoMember n =>
        simp [afterResolve, hgen, hlook] at hok
  | noInput gs hgs h0 h1 h2 haud hact he =>
    rw [he] at hok
    simp at hok

/-- A well-formed parsed generator output for the combat scene. -/
def rawCombat : RawGameResponse :=
  { emojiScene := some "⚔️👤👹❤️❤️🛡️"
    description := some "You strike the beast."
    options := some ["⚔️ Attack", "🏃 Flee"]
    newGameState := some "combat_wolf"
    ttsText := some "You strike the beast." }

/-- A world in which every external AI call succeeds. -/
def wAllSucceed : Upstream :=
  { transcriptionOf := fun _ => .transcript "attack the wolf"
    generatorOutput := fun _ _ => .parsed rawCombat
    speechFor := fun _ => .ok "UklGRg" }

/-- An audio-only request against the combat_wolf state. -/
def reqAudioCombat : VoiceActionRequest :=
  { audioData := some smallBlob, gameState := some "combat_wolf" }

/-- The response body produced on reqAudioCombat in the all-success world. -/
def combatBody : VoiceActionResponse :=
  { emojiScene := "⚔️👤👹❤️❤️🛡️"
    description := "You strike the beast."
    options := ["⚔️ Attack", "🏃 Flee"]
    newGameState := "combat_wolf"
    ttsText := "You strike the beast."
    audioData := some "UklGRg"
    transcription := some "attack the wolf"
    fallbackUsed := false }

theorem transcription_field_only_on_adopted_transcript_witness :
    ∃ blob gs, reqAudioCombat.audioData = some blob ∧ reqAudioCombat.gameState = some gs
      ∧ transcribeAudio (wAllSucceed.transcriptionOf blob) = .ok "attack the wolf"
      ∧ isBlank "attack the wolf" = false
      ∧ handleVoiceAction wAllSucceed reqAudioCombat =
          ((afterResolve wAllSucceed gs "attack the wolf" (some "attack the wolf") false).1,
           UpstreamCall.transcriptionCall blob ::
             (afterResolve wAllSucceed gs "attack the wolf" (some "attack the wolf") false).2) :=
  transcription_field_only_on_adopted_transcript wAllSucceed reqAudioCombat combatBody
    "attack the wolf" (by decide) rfl

/-- Claim C7: a synthesis failure is never fatal: with the transcription
and generation oracles fixed, the handler result stripped of its optional
audio field does not depend on the synthesizer oracle at all — so a
synthesis error can never change the status, the scene fields, or the
fallback flag — and when synthesis fails for every text the response is
returned with no audioData. -/
theorem synthesis_failure_never_fatal
    (w1 w2 : Upstream) (req : VoiceActionRequest)
    (ht : w1.transcriptionOf = w2.transcriptionOf)
    (hg : w1.generatorOutput = w2.generatorOutput) :
    withoutAudio (handleVoiceAction w1 req).1 = withoutAudio (handleVoiceAction w2 req).1
    ∧ ((∀ s, (w1.speechFor s).toOption = none) →
        responseAudio (handleVoiceAction w1 req).1 = none) := by
  constructor
  · obtain ⟨t1, g1, s1⟩ := w1
    obtain ⟨t2, g2, s2⟩ := w2
    change t1 = t2 at ht
    change g1 = g2 at hg
    subst ht
    subst hg
    cases handler_path ⟨t1, g1, s1⟩ req with
    | missingState hgs he =>
      have he2 : handleVoiceAction ⟨t1, g1, s2⟩ req =
          (.clientError "gameState is required" none, []) := by
        rcases hgs with h | h <;> simp [handleVoiceAction, h]
      rw [he, he2]
    | newSession gs hgs hi he =>
      have he2 : handleVoiceAction ⟨t1, g1, s2⟩ req = initialResponsePair ⟨t1, g1, s2⟩ := by
        rcases hi with h | h <;> simp [handleVoiceAction, hgs, h]
      rw [he, he2]
      rfl
    | oversized gs blob hgs h0 h1 h2 haud hsz he =>
      have he2 : handleVoiceAction ⟨t1, g1, s2⟩ req =
          (.clientError "Audio file too large (max 10MB)" none, []) := by
        simp [handleVoiceAction, mainFlow, hgs, h0, h1, h2, haud, hsz]
      rw [he, he2]
    | audioReject gs m blob hgs h0 h1 h2 haud hsz htr hact he =>
      have he2 : handleVoiceAction ⟨t1, g1, s2⟩ req =
          (.clientError "Failed to process audio and no text fallback provided" (some m),
           [UpstreamCall.transcriptionCall blob]) := by
        rcases hact with h | h <;>
          simp [handleVoiceAction, mainFlow, fallbackAfterAudioFailure,
            hgs, h0, h1, h2, haud, hsz, htr, h]
      rw [he, he2]
    | audioFallback gs m a blob hgs h0 h1 h2 haud hsz htr hact ha he =>
      have he2 : handleVoiceAction ⟨t1, g1, s2⟩ req =
          ((afterResolve ⟨t1, g1, s2⟩ gs a none true).1,
           UpstreamCall.transcriptionCall blob ::
             (afterResolve ⟨t1, g1, s2⟩ gs a none true).2) := by
        simp [handleVoiceAction, mainFlow, fallbackAfterAudioFailure,
          hgs, h0, h1, h2, haud, hsz, htr, hact, ha]
      rw [he, he2]
      exact afterResolve_stripped_speech_indep t1 g1 s1 s2 gs a none true
    | audioSuccess gs t blob hgs h0 h1 h2 haud hsz htr he =>
      have hnb : isBlank t = false := transcribeAudio_ok_not_blank _ _ htr
      have he2 : handleVoiceAction ⟨t1, g1, s2⟩ req =
          ((afterResolve ⟨t1, g1, s2⟩ gs t (some t) false).1,
           UpstreamCall.transcriptionCall blob ::
             (afterResolve ⟨t1, g1, s2⟩ gs t (some t) false).2) := by
        simp [handleVoiceAction, mainFlow, hgs, h0, h1, h2, haud, hsz, htr, hnb]
      rw [he, he2]
      exact afterResolve_stripped_speech_indep t1 g1 s1 s2 gs t (some t) false
    | textOnly gs a hgs h0 h1 h2 haud hact ha he =>
      have he2 : handleVoiceAction ⟨t1, g1, s2⟩ req =
          afterResolve ⟨t1, g1, s2⟩ gs a none false := by
        simp [handleVoiceAction, mainFlow, hgs, h0, h1, h2, haud, hact, ha]
      rw [he, he2]
      exact afterResolve_stripped_speech_indep t1 g1 s1 s2 gs a none false
    | noInput gs hgs h0 h1 h2 haud hact he =>
      have he2 : handleVoiceAction ⟨t1, g1, s2⟩ req =
          (.clientError "Either audioData or action must be provided" none, []) := by
        rcases hact with h | h <;>
          simp [handleVoiceAction, mainFlow, hgs, h0, h1, h2, haud, h]
      rw [he, he2]
  · intro hfa
    cases handler_path w1 req with
    | missingState hgs he => rw [he]; rfl
    | newSession gs hgs hi he =>
      rw [he]
      simp [initialResponsePair, responseAudio, hfa]
    | oversized gs blob hgs h0 h1 h2 haud hsz he => rw [he]; rfl
    | audioReject gs m blob hgs h0 h1 h2 haud hsz htr hact he => rw [he]; rfl
    | audioFallback gs m a blob hgs h0 h1 h2 haud hsz htr hact ha he =>
      rw [he]
      exact afterResolve_responseAudio_none w1 gs a none true hfa
    | audioSuccess gs t blob hgs h0 h1 h2 haud hsz htr he =>
      rw [he]
      exact afterResolve_responseAudio_none w1 gs t (some t) false hfa
    | textOnly gs a hgs h0 h1 h2 haud hact ha he =>
      rw [he]
      exact afterResolve_responseAudio_none w1 gs a none false hfa
    | noInput gs hgs h0 h1 h2 haud hact he => rw [he]; rfl

theorem synthesis_failure_never_fatal_witness :
    responseAudio (handleVoiceAction wAllFail reqTextForest).1 = none :=
  (synthesis_failure_never_fatal wAllFail wAllFail reqTextForest rfl rfl).2 (fun _ => rfl)

/-- A parsed generator output in which all five required fields are
present yet emojiScene is the empty string. -/
def rawEmptyScene : RawGameResponse :=
  { emojiScene := some ""
    description := some "A quiet moment at home."
    options := some ["⚔️ Fight", "💤 Rest"]
    newGameState := some "home_full_health"
    ttsText := some "A quiet moment at home." }

/-- Claim C8 counterexample: on upstream content that parses with all
five required fields present but with emojiScene equal to the empty
string, generateGameResponse still fails, so failure is not exactly
characterized by upstream error, unparsable output, or a missing
required field: a present-but-empty field also fails the call. -/
theorem generation_fails_on_present_but_empty_field :
    generateGameResponse (GenOutcome.parsed rawEmptyScene) =
        .error "Failed to generate game response"
      ∧ rawEmptyScene.emojiScene ≠ none ∧ rawEmptyScene.description ≠ none
      ∧ rawEmptyScene.options ≠ none ∧ rawEmptyScene.newGameState ≠ none
      ∧ rawEmptyScene.ttsText ≠ none := by
  refine ⟨rfl, ?_, ?_, ?_, ?_, ?_⟩ <;> simp [rawEmptyScene]

/-- A parsed generator output violating both soft constraints (one
option, three emoji symbols) with all required fields truthy. -/
def rawOneOpt : RawGameResponse :=
  { emojiScene := some "🏠👤💰"
    description := some "A brief rest."
    options := some ["💤 Rest"]
    newGameState := some "home_full_health"
    ttsText := some "A brief rest." }

/-- Claim C8 (amended): generateGameResponse fails exactly when the
upstream call errors, returns no content or unparsable content, or any
of the four required string fields is missing or empty, or options is
missing (an empty options array is accepted); on success the parsed
record is returned unchanged, so option counts outside 2-4 and emoji
counts outside 6-12 are accepted as-is. -/
theorem generation_failure_characterization (o : GenOutcome) :
    ((∃ e, generateGameResponse o = .error e) ↔
      (o = GenOutcome.apiError ∨ o = GenOutcome.noContent ∨ o = GenOutcome.parseError
        ∨ ∃ r, o = GenOutcome.parsed r
            ∧ (r.emojiScene.getD "" = "" ∨ r.description.getD "" = "" ∨ r.options = none
                ∨ r.newGameState.getD "" = "" ∨ r.ttsText.getD "" = "")))
    ∧ (∀ r : RawGameResponse, o = GenOutcome.parsed r →
        r.emojiScene.getD "" ≠ "" → r.description.getD "" ≠ "" → r.options ≠ none →
        r.newGameState.getD "" ≠ "" → r.ttsText.getD "" ≠ "" →
        generateGameResponse o =
          .ok { emojiScene := r.emojiScene.getD ""
                description := r.description.getD ""
                options := r.options.getD []
                newGameState := r.newGameState.getD ""
                ttsText := r.ttsText.getD "" }) := by
  constructor
  · cases o with
    | apiError => simp [generateGameResponse]
    | noContent => simp [generateGameResponse]
    | parseError => simp [generateGameResponse]
    | parsed r =>
      by_cases hc : truthy r.emojiScene = false ∨ truthy r.description = false
          ∨ r.options = none ∨ truthy r.newGameState = false ∨ truthy r.ttsText = false
      · simp only [generateGameResponse, if_pos hc]
        constructor
        · intro _
          refine Or.inr (Or.inr (Or.inr ⟨r, rfl, ?_⟩))
          rcases hc with h | h | h | h | h
          · exact Or.inl ((truthy_eq_false_iff _).mp h)
          · exact Or.inr (Or.inl ((truthy_eq_false_iff _).mp h))
          · exact Or.inr (Or.inr (Or.inl h))
          · exact Or.inr (Or.inr (Or.inr (Or.inl ((truthy_eq_false_iff _).mp h))))
          · exact Or.inr (Or.inr (Or.inr (Or.inr ((truthy_eq_false_iff _).mp h))))
        · intro _
          exact ⟨"Failed to generate game response", rfl⟩
      · simp only [generateGameResponse, if_neg hc]
        constructor
        · rintro ⟨e, he⟩
          simp at he
        · rintro (h | h | h | ⟨r2, hr2, hbad⟩)
          · cases h
          · cases h
          · cases h
          · injection hr2 with h12
            subst h12
            push_neg at hc
            obtain ⟨c1, c2, c3, c4, c5⟩ := hc
            rcases hbad with h | h | h | h | h
            · exact absurd ((truthy_eq_false_iff _).mpr h) c1
            · exact absurd ((truthy_eq_false_iff _).mpr h) c2
            · exact absurd h c3
            · exact absurd ((truthy_eq_false_iff _).mpr h) c4
            · exact absurd ((truthy_eq_false_iff _).mpr h) c5
  · intro r ho he hd hopt hn ht2
    subst ho
    have hc : ¬(truthy r.emojiScene = false ∨ truthy r.description = false
        ∨ r.options = none ∨ truthy r.newGameState = false ∨ truthy r.ttsText = false) := by
      push_neg
      refine ⟨?_, ?_, hopt, ?_, ?_⟩ <;>
        · rw [Ne, truthy_eq_false_iff]
          assumption
    simp [generateGameResponse, if_neg hc]

theorem generation_failure_characterization_witness :
    generateGameResponse (GenOutcome.parsed rawOneOpt) =
      .ok { emojiScene := "🏠👤💰", description := "A brief rest.",
            options := ["💤 Rest"], newGameState := "home_full_health",
            ttsText := "A brief rest." } :=
  (generation_failure_characterization (GenOutcome.parsed rawOneOpt)).2 rawOneOpt rfl
    (by decide) (by decide) (by decide) (by decide) (by decide)
